import Mathlib

/-!
Verification of the `debug-test-specs` fixture generators
(`generate-tracer-specs.py` and `generate-4byte-specs.py`).

The scripts are embedded shallowly: the JSON values the scripts build are
modelled by an inductive `Json` type, the RPC transport is an oracle
`Rpc : Json → Json` mapping the POSTed JSON-RPC payload to the parsed reply
(a run in which every transport call returns; a raising transport aborts the
script and is modelled for the connectivity probe by an `Except` input), and
the filesystem is a state of existing directories plus a map from file path
to written bytes.
-/

/-- JSON values, as produced by Python's `json` module for the data handled
here (numbers restricted to integers, which is all the scripts construct). -/
inductive Json where
  | null : Json
  | bool : Bool → Json
  | num : Int → Json
  | str : String → Json
  | arr : List Json → Json
  | obj : List (String × Json) → Json

/-- The RPC transport: maps the full JSON-RPC payload POSTed by `rpc_call`
to the parsed JSON reply (`requests.post(...).json()`). -/
def Rpc : Type := Json → Json

/-- The payload built by `rpc_call(method, params)`:
`{"jsonrpc": "2.0", "method": method, "params": params, "id": 1}`. -/
def rpc_payload (method : String) (params : Json) : Json :=
  Json.obj [("jsonrpc", Json.str "2.0"), ("method", Json.str method),
            ("params", params), ("id", Json.num 1)]

/-- `rpc_call(method, params)` posts the payload and returns the parsed reply. -/
def rpc_call (transport : Rpc) (method : String) (params : Json) : Json :=
  transport (rpc_payload method params)

/-- Fuelled scanner behind `replaceAllL` (the fuel, at least the list length,
only makes the recursion structural). -/
def replaceFuel (pat : List Char) : Nat → List Char → List Char
  | _, [] => []
  | 0, l => l
  | fuel + 1, c :: rest =>
    if pat.isPrefixOf (c :: rest) then
      replaceFuel pat fuel (rest.drop (pat.length - 1))
    else
      c :: replaceFuel pat fuel rest

/-- Python `s.replace(pat, "")` on character lists, for a nonempty pattern:
scan left to right, drop each non-overlapping occurrence of `pat`, resume
scanning after the dropped occurrence. -/
def replaceAllL (pat : List Char) (l : List Char) : List Char :=
  replaceFuel pat l.length l

/-- Python `s.lower()` restricted to ASCII letters (the scripts' tracer names
are ASCII; `Char.toLower` lowers exactly the ASCII uppercase range). -/
def pyLower (s : String) : String := ⟨s.data.map Char.toLower⟩

/-- `tracer_dir_name = TRACER.replace("Tracer", "").lower() + "-tracer"`. -/
def tracer_dir_name (tracer : String) : String :=
  pyLower ⟨replaceAllL "Tracer".data tracer.data⟩ ++ "-tracer"

/-- Block definitions of `generate-tracer-specs.py` (block number, description). -/
def BLOCKS : List (String × String) := [
  ("0x0", "genesis"),
  ("0x1", "empty"),
  ("0x2", "simple-transfer"),
  ("0x3", "self-destruct-contract"),
  ("0x4", "set-contract-storage"),
  ("0x5", "clear-storage"),
  ("0x6", "self-destruct-send-funds"),
  ("0x7", "increment-bytes"),
  ("0x8", "call-one-level-deep"),
  ("0x9", "call-multi-level-deep"),
  ("0xa", "callcode-one-level"),
  ("0xb", "delegate-call-one-level-deep"),
  ("0xc", "sequence-memory"),
  ("0xd", "MSTORE"),
  ("0xe", "increment-storage"),
  ("0xf", "logs"),
  ("0x10", "halts"),
  ("0x11", "push-swap"),
  ("0x12", "memory-read-revert"),
  ("0x13", "self-destruct"),
  ("0x14", "create-create2"),
  ("0x15", "set-and-clean-storage"),
  ("0x16", "set-and-clean-storage"),
  ("0x17", "static-call-one-level-deep"),
  ("0x18", "static-call-multiple-level-deeep"),
  ("0x19", "erc20-contract-transfer"),
  ("0x1a", "call-one-level-gas-refund"),
  ("0x1b", "self-destruct-send-self"),
  ("0x1c", "self-destruct-sender"),
  ("0x1d", "stack-underflow"),
  ("0x1e", "0g0v0_Istanbul"),
  ("0x1f", "precompile"),
  ("0x20", "contract-creation-fails-level-1"),
  ("0x21", "stack-underflow"),
  ("0x22", "failed-create-operations")]

/-- Block definitions of `generate-4byte-specs.py` (block number, description). -/
def BLOCKS4 : List (String × String) := [
  ("0x0", "genesis"),
  ("0x1", "empty"),
  ("0x2", "simple-transfer"),
  ("0x3", "self-destruct-contract"),
  ("0x4", "set-contract-storage"),
  ("0x5", "clear-storage"),
  ("0x6", "self-destruct-send-funds"),
  ("0x7", "increment-bytes"),
  ("0x8", "call-one-level-deep"),
  ("0x9", "call-multi-level-deep"),
  ("0xa", "callcode-one-level"),
  ("0xb", "delegate-call-one-level-deep"),
  ("0xc", "sequence-memory"),
  ("0xd", "MSTORE"),
  ("0xe", "increment-storage"),
  ("0xf", "logs"),
  ("0x10", "halts"),
  ("0x11", "push-swap"),
  ("0x12", "memory-read-revert"),
  ("0x13", "self-destruct"),
  ("0x14", "create-create2"),
  ("0x15", "set-and-clean-storage"),
  ("0x16", "set-and-clean-storage"),
  ("0x17", "static-call-one-level-deep"),
  ("0x18", "static-call-multiple-level-deeep"),
  ("0x19", "erc20-contract-transfer"),
  ("0x1a", "call-one-level-gas-refund"),
  ("0x1b", "self-destruct-send-self"),
  ("0x1c", "self-destruct-sender"),
  ("0x1d", "stack-underflow"),
  ("0x1e", "0g0v0_Istanbul"),
  ("0x1f", "precompile"),
  ("0x20", "contract-creation-fails-level-1"),
  ("0x21", "stack-underflow")]

/-- `tracer_params = {"tracer": TRACER}; if tracer_config:
tracer_params["tracerConfig"] = tracer_config` — a Python `dict` is truthy
exactly when nonempty, and `None` is falsy. -/
def tracer_params (tracer : String) (tracer_config : Option (List (String × Json))) :
    List (String × Json) :=
  match tracer_config with
  | none => [("tracer", Json.str tracer)]
  | some cfg =>
    if cfg.isEmpty then [("tracer", Json.str tracer)]
    else [("tracer", Json.str tracer), ("tracerConfig", Json.obj cfg)]

/-- One pending file write: the directory components and filename passed to
`os.path.join`, and the JSON document handed to `json.dump`. -/
structure SpecWrite where
  dir : List String
  filename : String
  content : Json

/-- `os.path.join` for plain relative components: join with `/`. -/
def joinPath : List String → String
  | [] => ""
  | [x] => x
  | x :: xs => x ++ "/" ++ joinPath xs

/-- The full path of a pending write. -/
def fullPath (w : SpecWrite) : String := joinPath (w.dir ++ [w.filename])

/-- `f"{index}-debug-{tracer_dir_name}-{block_hex}-{description}.json"`. -/
def spec_filename (slug : String) (index : Nat) (block_hex description : String) : String :=
  Nat.repr index ++ "-debug-" ++ slug ++ "-" ++ block_hex ++ "-" ++ description ++ ".json"

/-- `generate_spec` of `generate-tracer-specs.py`: builds the request, queries
the node, wraps request/response/status into the spec document, computes the
output location, and returns the per-block result count for the summary. -/
def generate_spec (tracer : String) (transport : Rpc) (block_hex description : String)
    (index : Nat) (tracer_config : Option (List (String × Json)))
    (subdirectory : Option String) : SpecWrite × Nat :=
  let slug := tracer_dir_name tracer
  let tp := tracer_params tracer tracer_config
  let request := Json.obj [("jsonrpc", Json.str "2.0"),
    ("method", Json.str "debug_traceBlockByNumber"),
    ("params", Json.arr [Json.str block_hex, Json.obj tp]),
    ("id", Json.num 1)]
  let response := rpc_call transport "debug_traceBlockByNumber"
    (Json.arr [Json.str block_hex, Json.obj tp])
  let spec := Json.obj [("request", request), ("response", response),
    ("statusCode", Json.num 200)]
  let filename := spec_filename slug index block_hex description
  let dir := match subdirectory with
    | some sd => ["specs", slug, sd]
    | none => ["specs", slug]
  -- result = response.get("result", []); len(result) if it is a list else 0
  let count := match response with
    | Json.obj kvs =>
      match (kvs.lookup "result").getD (Json.arr []) with
      | Json.arr l => l.length
      | _ => 0
    | _ => 0
  (⟨dir, filename, spec⟩, count)

/-- `for index, (block_hex, description) in enumerate(BLOCKS): generate_spec(...)`. -/
def generateAll (tracer : String) (transport : Rpc)
    (tracer_config : Option (List (String × Json))) (subdirectory : Option String) :
    List (SpecWrite × Nat) :=
  BLOCKS.enum.map fun p =>
    generate_spec tracer transport p.2.1 p.2.2 p.1 tracer_config subdirectory

/-- The files written by the generation phase of `main` in
`generate-tracer-specs.py`: both diffMode variants for `prestateTracer`,
a single unconfigured pass otherwise. -/
def mainWrites (tracer : String) (transport : Rpc) : List SpecWrite :=
  if tracer = "prestateTracer" then
    (generateAll tracer transport (some [("diffMode", Json.bool false)])
      (some "diff-mode-false")).map (·.1)
    ++ (generateAll tracer transport (some [("diffMode", Json.bool true)])
      (some "diff-mode-true")).map (·.1)
  else
    (generateAll tracer transport none none).map (·.1)

/-- The `debug_traceBlockByNumber` payloads issued by one generation pass. -/
def traceCallsFor (tracer : String) (tracer_config : Option (List (String × Json))) :
    List Json :=
  BLOCKS.enum.map fun p =>
    rpc_payload "debug_traceBlockByNumber"
      (Json.arr [Json.str p.2.1, Json.obj (tracer_params tracer tracer_config)])

/-- All trace payloads issued by a successful run of `main`. -/
def mainCalls (tracer : String) : List Json :=
  if tracer = "prestateTracer" then
    traceCallsFor tracer (some [("diffMode", Json.bool false)])
    ++ traceCallsFor tracer (some [("diffMode", Json.bool true)])
  else
    traceCallsFor tracer none

/-- A hexadecimal digit's value. -/
def hexDigitVal (c : Char) : Option Nat :=
  if '0' ≤ c ∧ c ≤ '9' then some (c.toNat - '0'.toNat)
  else if 'a' ≤ c ∧ c ≤ 'f' then some (c.toNat - 'a'.toNat + 10)
  else if 'A' ≤ c ∧ c ≤ 'F' then some (c.toNat - 'A'.toNat + 10)
  else none

/-- Python `int(s, 16)` on the inputs relevant here: an optional `0x`/`0X`
prefix followed by at least one hex digit (no sign, whitespace or
underscore handling); `none` models the `ValueError` raised otherwise. -/
def parseHex16 (s : String) : Option Nat :=
  let core := match s.data with
    | '0' :: 'x' :: rest => rest
    | '0' :: 'X' :: rest => rest
    | l => l
  if core.isEmpty then none
  else core.foldlM (fun acc c => (hexDigitVal c).map fun v => acc * 16 + v) 0

/-- `int(response.get("result", "0x0"), 16)` applied to the probe reply:
`none` models any exception inside `main`'s `try` block (`.get` on a
non-dict reply, or a non-string / malformed `result`). -/
def probeBlockNum (reply : Json) : Option Nat :=
  match reply with
  | Json.obj kvs =>
    match (kvs.lookup "result").getD (Json.str "0x0") with
    | Json.str s => parseHex16 s
    | _ => none
  | _ => none

/-- Outcome of running a script's `main`: the process exit code, the file
writes performed, and the trace payloads issued. -/
structure MainOut where
  exitCode : Nat
  writes : List SpecWrite
  traceCalls : List Json

/-- `main` of `generate-tracer-specs.py`. `probe` is the outcome of
`rpc_call("eth_blockNumber", [])` inside the `try` block: `.error` when
`requests.post` raises (node unreachable), `.ok reply` otherwise. -/
def mainRun (tracer : String) (probe : Except Unit Json) (transport : Rpc) : MainOut :=
  match probe with
  | .error _ => ⟨1, [], []⟩
  | .ok reply =>
    match probeBlockNum reply with
    | none => ⟨1, [], []⟩
    | some _ => ⟨0, mainWrites tracer transport, mainCalls tracer⟩

/-- `generate_4byte_spec` of `generate-4byte-specs.py`: hard-codes tracer
`"4byteTracer"` and slug `"4byte-tracer"`, writes without creating
directories, and additionally collects the 4-byte signatures found. -/
def generate_4byte_spec (transport : Rpc) (block_hex description : String)
    (index : Nat) : SpecWrite × Nat × List String :=
  let request := Json.obj [("jsonrpc", Json.str "2.0"),
    ("method", Json.str "debug_traceBlockByNumber"),
    ("params", Json.arr [Json.str block_hex, Json.obj [("tracer", Json.str "4byteTracer")]]),
    ("id", Json.num 1)]
  let response := rpc_call transport "debug_traceBlockByNumber"
    (Json.arr [Json.str block_hex, Json.obj [("tracer", Json.str "4byteTracer")]])
  let spec := Json.obj [("request", request), ("response", response),
    ("statusCode", Json.num 200)]
  let filename := Nat.repr index ++ "-debug-4byte-tracer-" ++ block_hex ++ "-"
    ++ description ++ ".json"
  -- signatures: keys of each tx_result["result"] mapping (a Python set;
  -- modelled as the duplicate-free list of keys in encounter order)
  let res := match response with
    | Json.obj kvs =>
      match (kvs.lookup "result").getD (Json.arr []) with
      | Json.arr l =>
        let sigs := l.foldl (fun acc tx =>
          match tx with
          | Json.obj fields =>
            match fields.lookup "result" with
            | some (Json.obj sigMap) =>
              sigMap.foldl (fun a kv => if kv.1 ∈ a then a else a ++ [kv.1]) acc
            | _ => acc
          | _ => acc) []
        (l.length, sigs)
      | _ => (0, [])
    | _ => (0, [])
  (⟨["specs", "4byte-tracer"], filename, spec⟩, res)

/-- The files written by the generation loop of `generate-4byte-specs.py`. -/
def writes4 (transport : Rpc) : List SpecWrite :=
  BLOCKS4.enum.map fun p => (generate_4byte_spec transport p.2.1 p.2.2 p.1).1

/-- `main` of `generate-4byte-specs.py` (same probe structure as `mainRun`). -/
def main4Run (probe : Except Unit Json) (transport : Rpc) : MainOut :=
  match probe with
  | .error _ => ⟨1, [], []⟩
  | .ok reply =>
    match probeBlockNum reply with
    | none => ⟨1, [], []⟩
    | some _ =>
      ⟨0, writes4 transport,
        BLOCKS4.enum.map fun p =>
          rpc_payload "debug_traceBlockByNumber"
            (Json.arr [Json.str p.2.1, Json.obj [("tracer", Json.str "4byteTracer")]])⟩

/-- Blank padding of `n` spaces. -/
def spaces (n : Nat) : String := ⟨List.replicate n ' '⟩

/-- One hexadecimal digit, lowercase (as in Python's `\uXXXX` escapes). -/
def hexChar (n : Nat) : Char :=
  if n < 10 then Char.ofNat (48 + n) else Char.ofNat (87 + n)

/-- A `\uXXXX` escape for a 16-bit code unit. -/
def uEscape (n : Nat) : String :=
  "\\u" ++ ⟨[hexChar (n / 4096 % 16), hexChar (n / 256 % 16),
             hexChar (n / 16 % 16), hexChar (n % 16)]⟩

/-- Escaping of one character inside a JSON string, as Python's `json` module
does with its default `ensure_ascii=True`: short escapes for the usual
controls, `\uXXXX` (surrogate pairs above the BMP) for everything outside
printable ASCII. -/
def escChar (c : Char) : String :=
  if c = '"' then "\\\""
  else if c = '\\' then "\\\\"
  else if c = '\n' then "\\n"
  else if c = '\r' then "\\r"
  else if c = '\t' then "\\t"
  else if c.toNat = 8 then "\\b"
  else if c.toNat = 12 then "\\f"
  else if 32 ≤ c.toNat ∧ c.toNat < 127 then ⟨[c]⟩
  else if c.toNat < 65536 then uEscape c.toNat
  else
    uEscape (55296 + (c.toNat - 65536) / 1024) ++ uEscape (56320 + (c.toNat - 65536) % 1024)

/-- A JSON string literal with its quotes. -/
def jsonQuote (s : String) : String :=
  "\"" ++ String.join (s.data.map escChar) ++ "\""

mutual

/-- Serialization of a JSON value as Python's `json.dump(..., indent=ind)`
renders it at indentation level `lvl`. -/
def dumpJson (ind lvl : Nat) : Json → String
  | .null => "null"
  | .bool b => if b then "true" else "false"
  | .num n => toString n
  | .str s => jsonQuote s
  | .arr [] => "[]"
  | .arr (x :: xs) =>
    "[\n" ++ spaces (lvl + ind) ++ dumpJson ind (lvl + ind) x
      ++ dumpItems ind (lvl + ind) xs ++ "\n" ++ spaces lvl ++ "]"
  | .obj [] => "\x7b\x7d"
  | .obj ((k, v) :: kvs) =>
    "\x7b\n" ++ spaces (lvl + ind) ++ jsonQuote k ++ ": " ++ dumpJson ind (lvl + ind) v
      ++ dumpFields ind (lvl + ind) kvs ++ "\n" ++ spaces lvl ++ "\x7d"

/-- Remaining array items, each preceded by `,\n` plus indentation. -/
def dumpItems (ind lvl : Nat) : List Json → String
  | [] => ""
  | x :: xs => ",\n" ++ spaces lvl ++ dumpJson ind lvl x ++ dumpItems ind lvl xs

/-- Remaining object fields, each preceded by `,\n` plus indentation. -/
def dumpFields (ind lvl : Nat) : List (String × Json) → String
  | [] => ""
  | (k, v) :: kvs =>
    ",\n" ++ spaces lvl ++ jsonQuote k ++ ": " ++ dumpJson ind lvl v ++ dumpFields ind lvl kvs

end

/-- `json.dump(spec, f, indent=ind)`: the bytes written to the file. -/
def dumps (ind : Nat) (j : Json) : String := dumpJson ind 0 j

/-- The filesystem as the scripts observe it: the set of existing directories
(as component lists relative to the working directory) and the contents of
the files written so far. -/
structure FS where
  dirs : List (List String)
  files : String → Option String

/-- The nonempty prefixes of a directory path: everything
`os.makedirs(..., exist_ok=True)` brings into existence. -/
def nePrefixes (d : List String) : List (List String) :=
  (List.range d.length).map fun k => d.take (k + 1)

/-- `os.makedirs(os.path.dirname(filepath), exist_ok=True)`: create the
directory and every intermediate, never failing when they already exist. -/
def mkdirs (fs : FS) (d : List String) : FS :=
  ⟨nePrefixes d ++ fs.dirs, fs.files⟩

/-- `open(filepath, "w")` followed by `json.dump(spec, f, indent=2)`:
fails (`FileNotFoundError`) when the parent directory is missing, otherwise
replaces whatever was at that path with the serialized document. -/
def openWrite (fs : FS) (w : SpecWrite) : Except Unit FS :=
  if w.dir = [] ∨ w.dir ∈ fs.dirs then
    .ok ⟨fs.dirs, fun p => if p = fullPath w then some (dumps 2 w.content) else fs.files p⟩
  else
    .error ()

/-- One write step of `generate_spec` in `generate-tracer-specs.py`:
`os.makedirs` on the destination directory, then the `json.dump` write. -/
def stepG (fs : FS) (w : SpecWrite) : Except Unit FS :=
  openWrite (mkdirs fs w.dir) w

/-- Run a sequence of writes against the filesystem, stopping at the first
raised error (the scripts have no handler around the write). -/
def runFS (step : FS → SpecWrite → Except Unit FS) (fs : FS) :
    List SpecWrite → Except Unit FS
  | [] => .ok fs
  | w :: ws =>
    match step fs w with
    | .ok fs' => runFS step fs' ws
    | .error e => .error e

/-- A filesystem with no directories and no files. -/
def emptyFS : FS := ⟨[], fun _ => none⟩

/-- Pure form of `stepG` (it never fails, which is proved below). -/
def pureStepG (fs : FS) (w : SpecWrite) : FS :=
  ⟨(mkdirs fs w.dir).dirs,
   fun p => if p = fullPath w then some (dumps 2 w.content) else fs.files p⟩

/-- The bytes left at path `p` by a write sequence, when some write targets
`p` (later writes win). -/
def lastContent : List SpecWrite → String → Option String
  | [], _ => none
  | w :: ws, p =>
    match lastContent ws p with
    | some c => some c
    | none => if p = fullPath w then some (dumps 2 w.content) else none

/-- Field lookup on a JSON object (`none` on any other shape). -/
def jLookup (j : Json) (key : String) : Option Json :=
  match j with
  | Json.obj kvs => kvs.lookup key
  | _ => none

/-- The `tracerConfig` entry of the `params` object inside a written spec
document's `request`, when present. -/
def requestConfigOf (content : Json) : Option Json :=
  match jLookup content "request" with
  | some req =>
    match jLookup req "params" with
    | some (Json.arr [_, Json.obj opts]) => opts.lookup "tracerConfig"
    | _ => none
  | none => none

/-- Modelled from the spec: the slug formula as claim C2 words it — the
tracer name with a `"Tracer"` suffix removed only when it occurs at the very
end, lower-cased, suffixed with `"-tracer"`. -/
def slugSpecC2 (tracer : String) : String :=
  pyLower (if "Tracer".data.isSuffixOf tracer.data
           then ⟨tracer.data.take (tracer.data.length - 6)⟩
           else tracer) ++ "-tracer"

/-- A JSON-RPC error reply, as in claim C6. -/
def errReply : Json :=
  Json.obj [("error", Json.obj [("code", Json.num (-32000)),
                                ("message", Json.str "block not found")])]

/-- A transport whose every reply is the JSON-RPC error object. -/
def constErrRpc : Rpc := fun _ => errReply

/-- A transport whose every reply is `null`. -/
def constNullRpc : Rpc := fun _ => Json.null

/-- A filesystem holding exactly the `specs/4byte-tracer` tree and no files. -/
def fs4 : FS := ⟨[["specs"], ["specs", "4byte-tracer"]], fun _ => none⟩

theorem isPrefixOf_self (l : List Char) : l.isPrefixOf l = true := by
  induction l with
  | nil => rfl
  | cons c cs ih => simp [List.isPrefixOf, ih]

theorem replaceFuel_mono (pat : List Char) :
    ∀ fuel fuel' l, l.length ≤ fuel → l.length ≤ fuel' →
    replaceFuel pat fuel l = replaceFuel pat fuel' l := by
  intro fuel
  induction fuel with
  | zero =>
    intro fuel' l hl _
    rw [List.eq_nil_of_length_eq_zero (Nat.le_zero.mp hl)]
    cases fuel' <;> rfl
  | succ fuel ih =>
    intro fuel' l hl hl'
    cases l with
    | nil => cases fuel' <;> rfl
    | cons c rest =>
      cases fuel' with
      | zero => exact absurd hl' (by simp)
      | succ fuel' =>
        show (if pat.isPrefixOf (c :: rest) then replaceFuel pat fuel (rest.drop (pat.length - 1))
              else c :: replaceFuel pat fuel rest)
           = (if pat.isPrefixOf (c :: rest) then replaceFuel pat fuel' (rest.drop (pat.length - 1))
              else c :: replaceFuel pat fuel' rest)
        have hr : rest.length ≤ fuel := by simpa using hl
        have hr' : rest.length ≤ fuel' := by simpa using hl'
        have hd : (rest.drop (pat.length - 1)).length ≤ rest.length := by
          simp [List.length_drop]
        by_cases hP : pat.isPrefixOf (c :: rest)
        · rw [if_pos hP, if_pos hP]
          exact ih fuel' _ (le_trans hd hr) (le_trans hd hr')
        · rw [if_neg hP, if_neg hP, ih fuel' rest hr hr']

theorem replaceAllL_nil (pat : List Char) : replaceAllL pat [] = [] := rfl

theorem replaceAllL_cons (pat : List Char) (c : Char) (rest : List Char) :
    replaceAllL pat (c :: rest)
    = if pat.isPrefixOf (c :: rest) then replaceAllL pat (rest.drop (pat.length - 1))
      else c :: replaceAllL pat rest := by
  show (if pat.isPrefixOf (c :: rest) then replaceFuel pat rest.length (rest.drop (pat.length - 1))
        else c :: replaceFuel pat rest.length rest) = _
  by_cases hP : pat.isPrefixOf (c :: rest)
  · rw [if_pos hP, if_pos hP]
    exact replaceFuel_mono pat rest.length _ _ (by simp [List.length_drop]) le_rfl
  · rw [if_neg hP, if_neg hP]
    rfl

theorem sepSplitL (sep : Char) :
    ∀ a b x y : List Char, (∀ c ∈ a, c ≠ sep) → (∀ c ∈ b, c ≠ sep) →
    a ++ sep :: x = b ++ sep :: y → a = b ∧ x = y := by
  intro a
  induction a with
  | nil =>
    intro b x y _ hb h
    cases b with
    | nil =>
      refine ⟨rfl, ?_⟩
      simpa using h
    | cons d bs =>
      exfalso
      simp only [List.nil_append, List.cons_append, List.cons.injEq] at h
      exact hb d (List.mem_cons_self d bs) h.1.symm
  | cons c as ih =>
    intro b x y ha hb h
    cases b with
    | nil =>
      exfalso
      simp only [List.nil_append, List.cons_append, List.cons.injEq] at h
      exact ha c (List.mem_cons_self c as) h.1
    | cons d bs =>
      simp only [List.cons_append, List.cons.injEq] at h
      obtain ⟨hcd, htail⟩ := h
      obtain ⟨hab, hxy⟩ := ih bs x y
        (fun e he => ha e (List.mem_cons_of_mem _ he))
        (fun e he => hb e (List.mem_cons_of_mem _ he)) htail
      exact ⟨by rw [hcd, hab], hxy⟩

theorem replaceAllL_append_pat (pat : List Char) (hp : pat ≠ []) :
    ∀ l : List Char,
    (∀ p < l.length, pat.isPrefixOf ((l ++ pat).drop p) = false) →
    replaceAllL pat (l ++ pat) = l := by
  intro l
  induction l with
  | nil =>
    intro _
    obtain ⟨q, qs, rfl⟩ := List.exists_cons_of_ne_nil hp
    rw [List.nil_append, replaceAllL_cons, if_pos (by simp [isPrefixOf_self])]
    simp [List.drop_length, replaceAllL_nil]
  | cons c l' ih =>
    intro h
    have h0 := h 0 (by simp)
    simp only [List.cons_append, List.drop_zero] at h0
    rw [List.cons_append, replaceAllL_cons, if_neg (by simp [h0])]
    have htail : ∀ p < l'.length, pat.isPrefixOf ((l' ++ pat).drop p) = false := by
      intro p hp'
      have := h (p + 1) (by simpa using Nat.succ_lt_succ hp')
      simpa [List.cons_append] using this
    rw [ih htail]

theorem replaceAllL_no_occ (pat : List Char) :
    ∀ l : List Char,
    (∀ p, pat.isPrefixOf (l.drop p) = false) →
    replaceAllL pat l = l := by
  intro l
  induction l with
  | nil => intro _; rw [replaceAllL_nil]
  | cons c l' ih =>
    intro h
    have h0 := h 0
    simp only [List.drop_zero] at h0
    rw [replaceAllL_cons, if_neg (by simp [h0])]
    have htail : ∀ p, pat.isPrefixOf (l'.drop p) = false := by
      intro p
      have := h (p + 1)
      simpa using this
    rw [ih htail]

theorem data_append (x y : String) : (x ++ y).data = x.data ++ y.data := rfl

theorem reprNoDash35 : ∀ i : Fin 35, ∀ c ∈ (Nat.repr i.1).data, c ≠ '-' := by decide

theorem reprInj35 : ∀ i j : Fin 35, Nat.repr i.1 = Nat.repr j.1 → i = j := by decide

theorem spec_filename_inj {g b1 d1 b2 d2 : String} {i j : Nat} (hi : i < 35) (hj : j < 35)
    (h : spec_filename g i b1 d1 = spec_filename g j b2 d2) : i = j := by
  have hd := congrArg String.data h
  simp only [spec_filename, data_append] at hd
  have hsh : (Nat.repr i).data
        ++ '-' :: ("debug-".data ++ (g.data ++ ('-' :: (b1.data ++ ('-' :: (d1.data ++ ".json".data))))))
      = (Nat.repr j).data
        ++ '-' :: ("debug-".data ++ (g.data ++ ('-' :: (b2.data ++ ('-' :: (d2.data ++ ".json".data)))))) := by
    simpa [List.append_assoc] using hd
  have hsp := sepSplitL '-' _ _ _ _
    (fun c hc => reprNoDash35 ⟨i, hi⟩ c hc)
    (fun c hc => reprNoDash35 ⟨j, hj⟩ c hc) hsh
  exact congrArg Fin.val (reprInj35 ⟨i, hi⟩ ⟨j, hj⟩ (String.ext hsp.1))

theorem joinPath3_inj {g f1 f2 : String}
    (h : joinPath ["specs", g, f1] = joinPath ["specs", g, f2]) : f1 = f2 := by
  have h' : "specs" ++ "/" ++ (g ++ "/" ++ f1) = "specs" ++ "/" ++ (g ++ "/" ++ f2) := h
  have hd := congrArg String.data h'
  simp only [data_append] at hd
  simp at hd
  exact String.ext hd

theorem joinPath4_inj {g sub f1 f2 : String}
    (h : joinPath ["specs", g, sub, f1] = joinPath ["specs", g, sub, f2]) : f1 = f2 := by
  have h' : "specs" ++ "/" ++ (g ++ "/" ++ (sub ++ "/" ++ f1))
      = "specs" ++ "/" ++ (g ++ "/" ++ (sub ++ "/" ++ f2)) := h
  have hd := congrArg String.data h'
  simp only [data_append] at hd
  simp at hd
  exact String.ext hd

theorem joinPath4_cross {g f1 f2 : String}
    (h : joinPath ["specs", g, "diff-mode-false", f1]
       = joinPath ["specs", g, "diff-mode-true", f2]) : False := by
  have h' : "specs" ++ "/" ++ (g ++ "/" ++ ("diff-mode-false" ++ "/" ++ f1))
      = "specs" ++ "/" ++ (g ++ "/" ++ ("diff-mode-true" ++ "/" ++ f2)) := h
  have hd := congrArg String.data h'
  simp only [data_append] at hd
  simp at hd

theorem fullPath_gen (t : String) (tr : Rpc) (b d : String) (i : Nat)
    (cfg : Option (List (String × Json))) (sub : Option String) :
    fullPath (generate_spec t tr b d i cfg sub).1
    = joinPath ((match sub with
        | some sd => ["specs", tracer_dir_name t, sd]
        | none => ["specs", tracer_dir_name t]) ++ [spec_filename (tracer_dir_name t) i b d]) := rfl

theorem blocksEnumNodup : BLOCKS.enum.Nodup := by decide

theorem blocksEnumLt : ∀ p ∈ BLOCKS.enum, p.1 < 35 := by decide

theorem blocksEnumFstInj : ∀ p ∈ BLOCKS.enum, ∀ q ∈ BLOCKS.enum, p.1 = q.1 → p = q := by decide

theorem generateAll_paths_nodup (t : String) (tr : Rpc)
    (cfg : Option (List (String × Json))) (sub : Option String) :
    (((generateAll t tr cfg sub).map (·.1)).map fullPath).Nodup := by
  simp only [generateAll, List.map_map]
  apply List.Nodup.map_on _ blocksEnumNodup
  intro p hp q hq heq
  have hp35 := blocksEnumLt p hp
  have hq35 := blocksEnumLt q hq
  apply blocksEnumFstInj p hp q hq
  simp only [Function.comp_apply] at heq
  rw [fullPath_gen, fullPath_gen] at heq
  cases sub with
  | none => exact spec_filename_inj hp35 hq35 (joinPath3_inj heq)
  | some sd => exact spec_filename_inj hp35 hq35 (joinPath4_inj heq)

theorem prestate_paths_disjoint (t : String) (tr1 tr2 : Rpc)
    (cfg1 cfg2 : Option (List (String × Json))) :
    ∀ a, a ∈ (((generateAll t tr1 cfg1 (some "diff-mode-false")).map (·.1)).map fullPath) →
    a ∈ (((generateAll t tr2 cfg2 (some "diff-mode-true")).map (·.1)).map fullPath) → False := by
  intro a h1 h2
  simp only [generateAll, List.map_map, List.mem_map] at h1 h2
  obtain ⟨p, _, hpe⟩ := h1
  obtain ⟨q, _, hqe⟩ := h2
  rw [← hqe] at hpe
  simp only [Function.comp_apply] at hpe
  rw [fullPath_gen, fullPath_gen] at hpe
  exact joinPath4_cross hpe

theorem mainWrites_paths_nodup (t : String) (tr : Rpc) :
    ((mainWrites t tr).map fullPath).Nodup := by
  unfold mainWrites
  by_cases ht : t = "prestateTracer"
  · rw [if_pos ht, List.map_append]
    refine List.Nodup.append (generateAll_paths_nodup t tr _ _)
      (generateAll_paths_nodup t tr _ _) ?_
    intro a ha hb
    exact prestate_paths_disjoint t tr tr _ _ a ha hb
  · rw [if_neg ht]
    exact generateAll_paths_nodup t tr none none

theorem self_mem_nePrefixes {d : List String} (hd : d ≠ []) : d ∈ nePrefixes d := by
  unfold nePrefixes
  apply List.mem_map.mpr
  have hlen : 0 < d.length := List.length_pos.mpr hd
  refine ⟨d.length - 1, List.mem_range.mpr (by omega), ?_⟩
  rw [Nat.sub_add_cancel hlen]
  exact List.take_length d

theorem stepG_ok (fs : FS) (w : SpecWrite) : stepG fs w = .ok (pureStepG fs w) := by
  unfold stepG openWrite
  rw [if_pos]
  · rfl
  · rcases eq_or_ne w.dir [] with h | h
    · exact Or.inl h
    · exact Or.inr (List.mem_append_left _ (self_mem_nePrefixes h))

theorem runFS_stepG_ok (ws : List SpecWrite) : ∀ fs,
    runFS stepG fs ws = .ok (ws.foldl pureStepG fs) := by
  induction ws with
  | nil => intro fs; rfl
  | cons w ws ih =>
    intro fs
    simp only [runFS, List.foldl_cons]
    rw [stepG_ok]
    exact ih (pureStepG fs w)

theorem foldl_files (ws : List SpecWrite) : ∀ (fs : FS) (p : String),
    (ws.foldl pureStepG fs).files p
    = match lastContent ws p with
      | some c => some c
      | none => fs.files p := by
  induction ws with
  | nil => intro fs p; rfl
  | cons w ws ih =>
    intro fs p
    rw [List.foldl_cons, ih, lastContent]
    cases hl : lastContent ws p with
    | some c => rfl
    | none =>
      by_cases hp : p = fullPath w
      · simp [pureStepG, hp]
      · simp [pureStepG, hp]

theorem lastContent_of_not_mem {ws : List SpecWrite} {p : String}
    (h : p ∉ ws.map fullPath) : lastContent ws p = none := by
  induction ws with
  | nil => rfl
  | cons w ws ih =>
    rw [List.map_cons] at h
    rw [lastContent, ih (fun hm => h (List.mem_cons_of_mem _ hm))]
    have : p ≠ fullPath w := fun he => h (he ▸ List.mem_cons_self _ _)
    simp [this]

theorem lastContent_of_mem_nodup {ws : List SpecWrite} (hnd : (ws.map fullPath).Nodup)
    {w : SpecWrite} (hw : w ∈ ws) :
    lastContent ws (fullPath w) = some (dumps 2 w.content) := by
  induction ws with
  | nil => cases hw
  | cons v ws ih =>
    rw [List.map_cons] at hnd
    rw [lastContent]
    rcases List.mem_cons.mp hw with rfl | hw'
    · rw [lastContent_of_not_mem (List.nodup_cons.mp hnd).1]
      simp
    · rw [ih (List.nodup_cons.mp hnd).2 hw']

theorem foldl_dirs_mono (ws : List SpecWrite) : ∀ (fs : FS) (d : List String),
    d ∈ fs.dirs → d ∈ (ws.foldl pureStepG fs).dirs := by
  induction ws with
  | nil => intro fs d hd; exact hd
  | cons w ws ih =>
    intro fs d hd
    rw [List.foldl_cons]
    apply ih
    show d ∈ nePrefixes w.dir ++ fs.dirs
    exact List.mem_append_right _ hd

theorem foldl_dirs_of_mem (ws : List SpecWrite) : ∀ (fs : FS) (w : SpecWrite),
    w ∈ ws → ∀ d ∈ nePrefixes w.dir, d ∈ (ws.foldl pureStepG fs).dirs := by
  induction ws with
  | nil => intro _ _ h; cases h
  | cons v ws ih =>
    intro fs w hw d hd
    rw [List.foldl_cons]
    rcases List.mem_cons.mp hw with rfl | hw'
    · apply foldl_dirs_mono
      show d ∈ nePrefixes w.dir ++ fs.dirs
      exact List.mem_append_left _ hd
    · exact ih _ w hw' d hd

theorem runFS_open_ok (ws : List SpecWrite) : ∀ fs : FS, (∀ w ∈ ws, w.dir ∈ fs.dirs) →
    ∃ fs', runFS openWrite fs ws = .ok fs' ∧ fs'.dirs = fs.dirs ∧
      ∀ p, fs'.files p = (match lastContent ws p with
        | some c => some c
        | none => fs.files p) := by
  induction ws with
  | nil => intro fs _; exact ⟨fs, rfl, rfl, fun p => rfl⟩
  | cons w ws ih =>
    intro fs hall
    have hw : w.dir ∈ fs.dirs := hall w (List.mem_cons_self _ _)
    have hstep : openWrite fs w
        = .ok ⟨fs.dirs, fun p => if p = fullPath w then some (dumps 2 w.content)
                                 else fs.files p⟩ := by
      unfold openWrite
      rw [if_pos (Or.inr hw)]
    obtain ⟨fs', h1, h2, h3⟩ := ih
      ⟨fs.dirs, fun p => if p = fullPath w then some (dumps 2 w.content) else fs.files p⟩
      (fun v hv => hall v (List.mem_cons_of_mem _ hv))
    refine ⟨fs', ?_, h2, ?_⟩
    · simp only [runFS]
      rw [hstep]
      exact h1
    · intro p
      rw [h3 p, lastContent]
      cases hl : lastContent ws p with
      | some c => rfl
      | none =>
        by_cases hp : p = fullPath w
        · simp [hp]
        · simp [hp]

/-- C1: within a single generation run, the computed output path of each
(catalog entry, variant) pair is unique — for every tracer name and
transport, the list of file paths written by the generation phase of `main`
is duplicate-free (the filename embeds the ordinal index, and each variant
writes into its own subdirectory). -/
theorem c1_unique_paths (tracer : String) (transport : Rpc) :
    ((mainWrites tracer transport).map fullPath).Nodup :=
  mainWrites_paths_nodup tracer transport

/-- C2 counterexample: the claim says only a trailing `"Tracer"` suffix is
removed and text elsewhere in the name is kept, but the code removes every
occurrence: for the tracer name `"TracerX"` the code produces `"x-tracer"`
while the claimed formula produces `"tracerx-tracer"`. -/
theorem c2_counterexample :
    tracer_dir_name "TracerX" = "x-tracer"
    ∧ slugSpecC2 "TracerX" = "tracerx-tracer"
    ∧ tracer_dir_name "TracerX" ≠ slugSpecC2 "TracerX" := by
  exact ⟨by decide, by decide, by decide⟩

/-- C2 (amended): the tracer slug is the tracer name with every occurrence of
`"Tracer"` removed (not only a trailing one), lower-cased, and suffixed with
`"-tracer"`. When `"Tracer"` occurs in the name only as a trailing suffix,
the slug is the lower-cased stem followed by `"-tracer"` (so
`"prestateTracer"` maps to `"prestate-tracer"`), and a name with no
occurrence at all is kept whole. -/
theorem c2_amended_slug (s : String)
    (h : ∀ p < s.length,
      "Tracer".data.isPrefixOf ((s ++ "Tracer").data.drop p) = false) :
    tracer_dir_name (s ++ "Tracer") = pyLower s ++ "-tracer"
    ∧ ∀ u : String, (∀ p, "Tracer".data.isPrefixOf (u.data.drop p) = false) →
        tracer_dir_name u = pyLower u ++ "-tracer" := by
  constructor
  · show pyLower ⟨replaceAllL "Tracer".data (s ++ "Tracer").data⟩ ++ "-tracer" = _
    rw [show (s ++ "Tracer").data = s.data ++ "Tracer".data from rfl,
        replaceAllL_append_pat "Tracer".data (by decide) s.data (fun p hp => h p hp)]
  · intro u hu
    show pyLower ⟨replaceAllL "Tracer".data u.data⟩ ++ "-tracer" = _
    rw [replaceAllL_no_occ "Tracer".data u.data hu]

/-- C2 witness: `"prestate" ++ "Tracer"` has `"Tracer"` only as a trailing
suffix, and its slug is `"prestate-tracer"`. -/
theorem c2_amended_slug_witness :
    (∀ p < ("prestate" : String).length,
      "Tracer".data.isPrefixOf ((("prestate" : String) ++ "Tracer").data.drop p) = false)
    ∧ tracer_dir_name ("prestate" ++ "Tracer") = pyLower "prestate" ++ "-tracer" :=
  ⟨by decide, (c2_amended_slug "prestate" (by decide)).1⟩

/-- C4: for the catalog entry `("0x1", "empty")` at ordinal index 0 and
tracer `"4byteTracer"`, both generators compute the path
`specs/4byte-tracer/0-debug-4byte-tracer-0x1-empty.json`, the written
document's `request.params` equals `["0x1", {"tracer": "4byteTracer"}]`,
and no `tracerConfig` key is present. -/
theorem c4_single_entry (transport : Rpc) :
    fullPath (generate_4byte_spec transport "0x1" "empty" 0).1
      = "specs/4byte-tracer/0-debug-4byte-tracer-0x1-empty.json"
    ∧ fullPath (generate_spec "4byteTracer" transport "0x1" "empty" 0 none none).1
      = "specs/4byte-tracer/0-debug-4byte-tracer-0x1-empty.json"
    ∧ (jLookup (generate_4byte_spec transport "0x1" "empty" 0).1.content "request").bind
        (fun req => jLookup req "params")
      = some (Json.arr [Json.str "0x1", Json.obj [("tracer", Json.str "4byteTracer")]])
    ∧ (jLookup (generate_spec "4byteTracer" transport "0x1" "empty" 0 none none).1.content
        "request").bind (fun req => jLookup req "params")
      = some (Json.arr [Json.str "0x1", Json.obj [("tracer", Json.str "4byteTracer")]])
    ∧ requestConfigOf (generate_4byte_spec transport "0x1" "empty" 0).1.content = none
    ∧ requestConfigOf
        (generate_spec "4byteTracer" transport "0x1" "empty" 0 none none).1.content = none :=
  ⟨rfl, rfl, rfl, rfl, rfl, rfl⟩

/-- C3: for `prestateTracer` (two variants) `main` writes exactly
`2 × |BLOCKS|` files split between the `diff-mode-false` and
`diff-mode-true` subdirectories, and for any other tracer it writes exactly
`|BLOCKS|` files whose directory is `specs/<tracerSlug>` with no variant
subdirectory. -/
theorem c3_file_counts (t : String) (transport : Rpc) (h : t ≠ "prestateTracer") :
    (mainWrites "prestateTracer" transport).length = 2 * BLOCKS.length
    ∧ (mainWrites "prestateTracer" transport).map (·.dir)
      = List.replicate BLOCKS.length ["specs", "prestate-tracer", "diff-mode-false"]
        ++ List.replicate BLOCKS.length ["specs", "prestate-tracer", "diff-mode-true"]
    ∧ (mainWrites t transport).length = BLOCKS.length
    ∧ ∀ w ∈ mainWrites t transport, w.dir = ["specs", tracer_dir_name t] := by
  refine ⟨rfl, rfl, ?_, ?_⟩
  · unfold mainWrites
    rw [if_neg h]
    simp [generateAll, List.enum_length]
  · intro w hw
    unfold mainWrites at hw
    rw [if_neg h] at hw
    simp only [generateAll, List.map_map, List.mem_map] at hw
    obtain ⟨p, _, rfl⟩ := hw
    rfl

/-- C3 witness at tracer `"callTracer"` and the `null`-replying transport. -/
theorem c3_file_counts_witness :
    (("callTracer" : String) ≠ "prestateTracer")
    ∧ ((mainWrites "prestateTracer" constNullRpc).length = 2 * BLOCKS.length
      ∧ (mainWrites "prestateTracer" constNullRpc).map (·.dir)
        = List.replicate BLOCKS.length ["specs", "prestate-tracer", "diff-mode-false"]
          ++ List.replicate BLOCKS.length ["specs", "prestate-tracer", "diff-mode-true"]
      ∧ (mainWrites "callTracer" constNullRpc).length = BLOCKS.length
      ∧ ∀ w ∈ mainWrites "callTracer" constNullRpc,
          w.dir = ["specs", tracer_dir_name "callTracer"]) :=
  ⟨by decide, c3_file_counts "callTracer" constNullRpc (by decide)⟩

/-- C9: an empty `tracerConfig` mapping is treated exactly like no
configuration — the `tracerConfig` key appears in the request's params
object (and hence in the written document) precisely when the configuration
is a nonempty mapping. -/
theorem c9_empty_config (t : String) (cfg : Option (List (String × Json))) :
    tracer_params t (some []) = tracer_params t none
    ∧ (((tracer_params t cfg).lookup "tracerConfig").isSome
        ↔ ∃ l, cfg = some l ∧ l ≠ [])
    ∧ ∀ (transport : Rpc) (b d : String) (i : Nat) (sub : Option String),
        ((requestConfigOf (generate_spec t transport b d i cfg sub).1.content).isSome
          ↔ ∃ l, cfg = some l ∧ l ≠ []) := by
  have hmain : ∀ c : Option (List (String × Json)),
      (((tracer_params t c).lookup "tracerConfig").isSome ↔ ∃ l, c = some l ∧ l ≠ []) := by
    intro c
    cases c with
    | none =>
      simp only [show (tracer_params t none).lookup "tracerConfig" = none from rfl]
      simp
    | some l =>
      cases l with
      | nil =>
        simp only [show (tracer_params t (some [])).lookup "tracerConfig" = none from rfl]
        simp
      | cons kv kvs =>
        simp only [show (tracer_params t (some (kv :: kvs))).lookup "tracerConfig"
          = some (Json.obj (kv :: kvs)) from rfl]
        simp
  refine ⟨rfl, hmain cfg, ?_⟩
  intro transport b d i sub
  have he : requestConfigOf (generate_spec t transport b d i cfg sub).1.content
      = (tracer_params t cfg).lookup "tracerConfig" := rfl
  rw [he]
  exact hmain cfg

/-- C7: when the connectivity probe raises, or its reply cannot be parsed,
both scripts' `main` write zero files, issue zero trace requests, and return
the non-zero exit code 1. -/
theorem c7_probe_failure (t : String) (probe : Except Unit Json) (transport : Rpc)
    (h : probe = .error () ∨ ∃ j, probe = .ok j ∧ probeBlockNum j = none) :
    (mainRun t probe transport).writes = []
    ∧ (mainRun t probe transport).exitCode = 1
    ∧ (mainRun t probe transport).exitCode ≠ 0
    ∧ (mainRun t probe transport).traceCalls = []
    ∧ (main4Run probe transport).writes = []
    ∧ (main4Run probe transport).exitCode = 1
    ∧ (main4Run probe transport).traceCalls = [] := by
  rcases h with rfl | ⟨j, rfl, hj⟩
  · exact ⟨rfl, rfl, Nat.one_ne_zero, rfl, rfl, rfl, rfl⟩
  · simp [mainRun, main4Run, hj]

/-- C7 witness: a raising probe at tracer `"callTracer"`. -/
theorem c7_probe_failure_witness :
    ((Except.error () : Except Unit Json) = .error ()
      ∨ ∃ j, (Except.error () : Except Unit Json) = .ok j ∧ probeBlockNum j = none)
    ∧ ((mainRun "callTracer" (.error ()) constNullRpc).writes = []
      ∧ (mainRun "callTracer" (.error ()) constNullRpc).exitCode = 1
      ∧ (mainRun "callTracer" (.error ()) constNullRpc).exitCode ≠ 0
      ∧ (mainRun "callTracer" (.error ()) constNullRpc).traceCalls = []
      ∧ (main4Run (.error ()) constNullRpc).writes = []
      ∧ (main4Run (.error ()) constNullRpc).exitCode = 1
      ∧ (main4Run (.error ()) constNullRpc).traceCalls = []) :=
  ⟨Or.inl rfl, c7_probe_failure "callTracer" (.error ()) constNullRpc (Or.inl rfl)⟩

/-- C6: every written spec document carries `statusCode = 200` (both
scripts), and a JSON-RPC error reply is stored verbatim as the document's
`response` while the run still produces a file for every catalog entry. -/
theorem c6_error_fixture (t : String) (transport : Rpc)
    (ht : t ≠ "prestateTracer")
    (h : transport (rpc_payload "debug_traceBlockByNumber"
      (Json.arr [Json.str "0x1", Json.obj [("tracer", Json.str t)]])) = errReply) :
    (∀ (u : String) (tr' : Rpc), ∀ w ∈ mainWrites u tr',
        jLookup w.content "statusCode" = some (Json.num 200))
    ∧ (∀ tr' : Rpc, ∀ w ∈ writes4 tr',
        jLookup w.content "statusCode" = some (Json.num 200))
    ∧ ((mainWrites t transport).length = BLOCKS.length
      ∧ ∃ w, (mainWrites t transport)[1]? = some w
          ∧ jLookup w.content "response" = some errReply
          ∧ jLookup w.content "statusCode" = some (Json.num 200)) := by
  have hsc : ∀ (u : String) (tr' : Rpc) cfg sub,
      ∀ w ∈ (generateAll u tr' cfg sub).map (·.1),
      jLookup w.content "statusCode" = some (Json.num 200) := by
    intro u tr' cfg sub w hw
    simp only [generateAll, List.map_map, List.mem_map] at hw
    obtain ⟨p, _, rfl⟩ := hw
    rfl
  refine ⟨?_, ?_, ?_, ?_⟩
  · intro u tr' w hw
    unfold mainWrites at hw
    by_cases hp : u = "prestateTracer"
    · rw [if_pos hp] at hw
      rcases List.mem_append.mp hw with h1 | h2
      · exact hsc _ _ _ _ w h1
      · exact hsc _ _ _ _ w h2
    · rw [if_neg hp] at hw
      exact hsc _ _ _ _ w hw
  · intro tr' w hw
    simp only [writes4, List.mem_map] at hw
    obtain ⟨p, _, rfl⟩ := hw
    rfl
  · unfold mainWrites
    rw [if_neg ht]
    simp [generateAll, List.enum_length]
  · unfold mainWrites
    rw [if_neg ht]
    refine ⟨(generate_spec t transport "0x1" "empty" 1 none none).1, ?_, ?_, rfl⟩
    · simp only [generateAll, List.map_map, List.getElem?_map]
      rw [show BLOCKS.enum[1]? = some (1, ("0x1", "empty")) from rfl]
      rfl
    · have he : jLookup (generate_spec t transport "0x1" "empty" 1 none none).1.content
          "response"
          = some (transport (rpc_payload "debug_traceBlockByNumber"
              (Json.arr [Json.str "0x1", Json.obj [("tracer", Json.str t)]]))) := rfl
      rw [he, h]

/-- C6 witness: a transport replying with the error object at tracer
`"callTracer"`. -/
theorem c6_error_fixture_witness :
    (("callTracer" : String) ≠ "prestateTracer")
    ∧ constErrRpc (rpc_payload "debug_traceBlockByNumber"
        (Json.arr [Json.str "0x1", Json.obj [("tracer", Json.str "callTracer")]])) = errReply
    ∧ ((mainWrites "callTracer" constErrRpc).length = BLOCKS.length
      ∧ ∃ w, (mainWrites "callTracer" constErrRpc)[1]? = some w
          ∧ jLookup w.content "response" = some errReply
          ∧ jLookup w.content "statusCode" = some (Json.num 200)) :=
  ⟨by decide, rfl, (c6_error_fixture "callTracer" constErrRpc (by decide) rfl).2.2⟩

/-- C10: the generic catalog is the 4byte catalog extended by exactly the
entry `("0x22", "failed-create-operations")`, and running the generic
generator with tracer `"4byteTracer"` produces the 4byte generator's writes
(same requests, same paths, same documents, given the same transport)
followed by the single extra file for that appended entry. -/
theorem c10_refinement (transport : Rpc) :
    BLOCKS = BLOCKS4 ++ [("0x22", "failed-create-operations")]
    ∧ mainWrites "4byteTracer" transport
      = writes4 transport
        ++ [(generate_spec "4byteTracer" transport "0x22" "failed-create-operations"
              34 none none).1]
    ∧ ∀ i, i < BLOCKS4.length →
        (mainWrites "4byteTracer" transport)[i]? = (writes4 transport)[i]? := by
  refine ⟨rfl, rfl, ?_⟩
  intro i hi
  have hlen : i < (writes4 transport).length := by
    simpa [writes4, List.enum_length] using hi
  rw [show mainWrites "4byteTracer" transport
      = writes4 transport
        ++ [(generate_spec "4byteTracer" transport "0x22" "failed-create-operations"
              34 none none).1] from rfl]
  rw [List.getElem?_append, if_pos hlen]

theorem generateAll_congr (t : String) (tr1 tr2 : Rpc)
    (cfg : Option (List (String × Json))) (sub : Option String)
    (h : ∀ c ∈ traceCallsFor t cfg, tr1 c = tr2 c) :
    generateAll t tr1 cfg sub = generateAll t tr2 cfg sub := by
  unfold generateAll
  apply List.map_congr_left
  intro p hp
  have hc : rpc_payload "debug_traceBlockByNumber"
      (Json.arr [Json.str p.2.1, Json.obj (tracer_params t cfg)]) ∈ traceCallsFor t cfg :=
    List.mem_map.mpr ⟨p, hp, rfl⟩
  simp only [generate_spec, rpc_call]
  rw [h _ hc]

theorem mainWrites_congr (t : String) (tr1 tr2 : Rpc)
    (h : ∀ c ∈ mainCalls t, tr1 c = tr2 c) :
    mainWrites t tr1 = mainWrites t tr2 := by
  unfold mainWrites
  unfold mainCalls at h
  by_cases ht : t = "prestateTracer"
  · rw [if_pos ht]
    rw [if_pos ht] at h
    have h1 : ∀ c ∈ traceCallsFor t (some [("diffMode", Json.bool false)]), tr1 c = tr2 c :=
      fun c hc => h c (List.mem_append_left _ hc)
    have h2 : ∀ c ∈ traceCallsFor t (some [("diffMode", Json.bool true)]), tr1 c = tr2 c :=
      fun c hc => h c (List.mem_append_right _ hc)
    rw [generateAll_congr t tr1 tr2 _ _ h1, generateAll_congr t tr1 tr2 _ _ h2, if_pos ht]
  · rw [if_neg ht]
    rw [if_neg ht] at h
    rw [generateAll_congr t tr1 tr2 none none h, if_neg ht]

/-- C5: with an unchanged catalog, tracer and variants, two runs whose
transports return identical replies on every issued trace request produce
identical write lists, hence byte-for-byte identical serialized files; and
the final content at each written path is independent of the initial state
of the filesystem (prior files are overwritten). -/
theorem c5_deterministic (t : String) (tr1 tr2 : Rpc) (fs1 fs2 : FS)
    (h : ∀ c ∈ mainCalls t, tr1 c = tr2 c) :
    mainWrites t tr1 = mainWrites t tr2
    ∧ (mainWrites t tr1).map (fun w => (fullPath w, dumps 2 w.content))
      = (mainWrites t tr2).map (fun w => (fullPath w, dumps 2 w.content))
    ∧ ∃ fsA fsB, runFS stepG fs1 (mainWrites t tr1) = .ok fsA
        ∧ runFS stepG fs2 (mainWrites t tr2) = .ok fsB
        ∧ ∀ w ∈ mainWrites t tr1, fsA.files (fullPath w) = fsB.files (fullPath w) := by
  have hw := mainWrites_congr t tr1 tr2 h
  refine ⟨hw, by rw [hw], ?_⟩
  refine ⟨(mainWrites t tr1).foldl pureStepG fs1, (mainWrites t tr2).foldl pureStepG fs2,
    runFS_stepG_ok _ fs1, runFS_stepG_ok _ fs2, ?_⟩
  intro w hwm
  rw [foldl_files, foldl_files, ← hw,
    lastContent_of_mem_nodup (mainWrites_paths_nodup t tr1) hwm]

/-- C5 witness: equal transports at tracer `"callTracer"` over two different
initial filesystems. -/
theorem c5_deterministic_witness :
    (∀ c ∈ mainCalls "callTracer", constNullRpc c = constNullRpc c)
    ∧ (mainWrites "callTracer" constNullRpc = mainWrites "callTracer" constNullRpc
      ∧ (mainWrites "callTracer" constNullRpc).map (fun w => (fullPath w, dumps 2 w.content))
        = (mainWrites "callTracer" constNullRpc).map (fun w => (fullPath w, dumps 2 w.content))
      ∧ ∃ fsA fsB, runFS stepG emptyFS (mainWrites "callTracer" constNullRpc) = .ok fsA
          ∧ runFS stepG fs4 (mainWrites "callTracer" constNullRpc) = .ok fsB
          ∧ ∀ w ∈ mainWrites "callTracer" constNullRpc,
              fsA.files (fullPath w) = fsB.files (fullPath w)) :=
  ⟨fun _ _ => rfl,
    c5_deterministic "callTracer" constNullRpc constNullRpc emptyFS fs4 (fun _ _ => rfl)⟩

/-- C8 counterexample: `generate-4byte-specs.py` never creates directories —
on a filesystem without `specs/4byte-tracer` its very first write raises
instead of succeeding, so the claim's "the generator ensures the destination
directory exists before writing" is false for that generator. -/
theorem c8_counterexample :
    runFS openWrite emptyFS (writes4 constNullRpc) = .error ()
    ∧ ∀ fs', runFS openWrite emptyFS (writes4 constNullRpc) ≠ .ok fs' := by
  refine ⟨rfl, ?_⟩
  intro fs' h
  rw [show runFS openWrite emptyFS (writes4 constNullRpc) = .error () from rfl] at h
  exact Except.noConfusion h

/-- C8 (amended): the generic generator (`generate-tracer-specs.py`) creates
the destination directory and every intermediate before each write, so its
run never fails and leaves, at every computed path, exactly the 2-space
indented serialization of the spec document, whatever the initial
filesystem; the 4byte generator performs no directory creation and succeeds
exactly on filesystems where `specs/4byte-tracer` already exists, with the
same written contents. -/
theorem c8_amended (t : String) (transport : Rpc) (fs : FS) :
    (∃ fs', runFS stepG fs (mainWrites t transport) = .ok fs'
      ∧ ∀ w ∈ mainWrites t transport,
          (∀ k < w.dir.length, w.dir.take (k + 1) ∈ fs'.dirs)
          ∧ fs'.files (fullPath w) = some (dumps 2 w.content))
    ∧ ∀ fs0 : FS, ["specs", "4byte-tracer"] ∈ fs0.dirs →
        ∃ fs', runFS openWrite fs0 (writes4 transport) = .ok fs'
          ∧ ∀ w ∈ writes4 transport, fs'.files (fullPath w) = some (dumps 2 w.content) := by
  constructor
  · refine ⟨(mainWrites t transport).foldl pureStepG fs, runFS_stepG_ok _ fs, ?_⟩
    intro w hw
    constructor
    · intro k hk
      apply foldl_dirs_of_mem _ fs w hw
      exact List.mem_map.mpr ⟨k, List.mem_range.mpr hk, rfl⟩
    · rw [foldl_files, lastContent_of_mem_nodup (mainWrites_paths_nodup t transport) hw]
  · intro fs0 h0
    have hdirs : ∀ w ∈ writes4 transport, w.dir ∈ fs0.dirs := by
      intro w hw
      simp only [writes4, List.mem_map] at hw
      obtain ⟨p, _, rfl⟩ := hw
      exact h0
    obtain ⟨fs', h1, _, h3⟩ := runFS_open_ok (writes4 transport) fs0 hdirs
    refine ⟨fs', h1, ?_⟩
    intro w hw
    have hnd : ((writes4 transport).map fullPath).Nodup := by
      rw [show (writes4 transport).map fullPath = (writes4 constNullRpc).map fullPath from rfl]
      decide
    rw [h3, lastContent_of_mem_nodup hnd hw]

/-- C8 witness: the generic run on the empty filesystem, and the 4byte run
on a filesystem already holding `specs/4byte-tracer`. -/
theorem c8_amended_witness :
    (["specs", "4byte-tracer"] ∈ fs4.dirs)
    ∧ (∃ fs', runFS stepG emptyFS (mainWrites "callTracer" constNullRpc) = .ok fs'
        ∧ ∀ w ∈ mainWrites "callTracer" constNullRpc,
            (∀ k < w.dir.length, w.dir.take (k + 1) ∈ fs'.dirs)
            ∧ fs'.files (fullPath w) = some (dumps 2 w.content))
    ∧ (∃ fs', runFS openWrite fs4 (writes4 constNullRpc) = .ok fs'
        ∧ ∀ w ∈ writes4 constNullRpc, fs'.files (fullPath w) = some (dumps 2 w.content)) :=
  ⟨by decide, (c8_amended "callTracer" constNullRpc emptyFS).1,
    (c8_amended "callTracer" constNullRpc emptyFS).2 fs4 (by decide)⟩

/-- C10 witness: the shared-prefix equality at index 0 under the
`null`-replying transport. -/
theorem c10_refinement_witness :
    BLOCKS = BLOCKS4 ++ [("0x22", "failed-create-operations")]
    ∧ mainWrites "4byteTracer" constNullRpc
      = writes4 constNullRpc
        ++ [(generate_spec "4byteTracer" constNullRpc "0x22" "failed-create-operations"
              34 none none).1]
    ∧ (0 < BLOCKS4.length
      ∧ (mainWrites "4byteTracer" constNullRpc)[0]? = (writes4 constNullRpc)[0]?) :=
  ⟨(c10_refinement constNullRpc).1, (c10_refinement constNullRpc).2.1,
    by decide, (c10_refinement constNullRpc).2.2 0 (by decide)⟩
